import Mathlib

/-!
Shallow embedding of the `parallel-clustering` benchmarking harness
(`test.py` and `graphs.py`), together with theorems settling the
specification claims about it.

Python string operations are re-implemented structurally on `List Char`
(restricted to ASCII, which covers every string the harness manipulates),
so that all definitions are executable and kernel-reducible.
Subprocess execution is modelled by passing the observable outcome of the
external binary (return code, standard output) as an explicit argument;
the harness code that inspects those outcomes is translated faithfully.
-/

namespace PClust

/-! ### Python string primitives -/

/-- ASCII whitespace as Python's `str` methods treat it. -/
def isPyWhitespace (c : Char) : Bool :=
  c = ' ' || c = '\t' || c = '\n' || c = '\r' || c = '\x0b' || c = '\x0c'

/-- Python `str.strip()` (ASCII whitespace). -/
def pyStrip (s : String) : String :=
  ⟨((s.data.dropWhile isPyWhitespace).reverse.dropWhile isPyWhitespace).reverse⟩

/-- Auxiliary for `pySplit`: whitespace-run splitting with an accumulator. -/
def pySplitAux : List Char → List Char → List String
  | [], acc => if acc.isEmpty then [] else [⟨acc.reverse⟩]
  | c :: rest, acc =>
    if c.isWhitespace then
      (if acc.isEmpty then [] else [⟨acc.reverse⟩]) ++ pySplitAux rest []
    else pySplitAux rest (c :: acc)

/-- Python `str.split()` with no separator: splits on whitespace runs and
drops empty tokens. -/
def pySplit (s : String) : List String := pySplitAux s.data []

/-- Auxiliary for `pySplitSep`. -/
def pySplitSepAux (sep : Char) : List Char → List Char → List String
  | [], acc => [⟨acc.reverse⟩]
  | c :: rest, acc =>
    if c = sep then ⟨acc.reverse⟩ :: pySplitSepAux sep rest []
    else pySplitSepAux sep rest (c :: acc)

/-- Python `str.split(sep)` for a one-character separator (the only form the
harness uses); keeps empty tokens, and returns `[""]` on the empty string. -/
def pySplitSep (sep : Char) (s : String) : List String := pySplitSepAux sep s.data []

/-- Python `sep.join(parts)`. -/
def pyJoin (sep : String) : List String → String
  | [] => ""
  | x :: xs => xs.foldl (fun a s => a ++ sep ++ s) x

/-- Python `s.replace(old, new)` for a one-character `old` and a
one-character `new` (used for `inp.replace(".", "_")`). -/
def pyReplaceChar (a b : Char) (s : String) : String :=
  ⟨s.data.map (fun c => if c = a then b else c)⟩

/-- Fuel-driven worker for `pyReplace`; fuel `s.length` always suffices
because every step consumes at least one character of the subject. -/
def pyReplaceF (old new : List Char) : Nat → List Char → List Char
  | _, [] => []
  | 0, s => s
  | fuel + 1, c :: rest =>
    if old.isPrefixOf (c :: rest) then
      new ++ pyReplaceF old new fuel (rest.drop (old.length - 1))
    else
      c :: pyReplaceF old new fuel rest

/-- Python `s.replace(old, new)` for a nonempty `old`: replaces
non-overlapping occurrences left to right.  (Python's degenerate empty-`old`
case intersperses `new` everywhere; the harness never uses it.) -/
def pyReplace (s old new : String) : String :=
  if old.data.isEmpty then
    ⟨new.data ++ s.data.flatMap (fun c => c :: new.data)⟩
  else ⟨pyReplaceF old.data new.data s.data.length s.data⟩

/-- ASCII lowercase of one character, as Python `str.lower()` does. -/
def pyLowerChar (c : Char) : Char :=
  if 'A' ≤ c ∧ c ≤ 'Z' then Char.ofNat (c.toNat + 32) else c

/-- Python `str.lower()` (ASCII). -/
def pyLower (s : String) : String := ⟨s.data.map pyLowerChar⟩

/-- Python `str.startswith(p)`. -/
def pyStartsWith (s p : String) : Bool := p.data.isPrefixOf s.data

/-- Python `str.endswith(p)`. -/
def pyEndsWith (s p : String) : Bool := p.data.isSuffixOf s.data

/-- Python `str.removesuffix(suf)`: drops one trailing occurrence of `suf`
when present, otherwise returns the string unchanged. -/
def pyRemovesuffix (s suf : String) : String :=
  if pyEndsWith s suf then ⟨s.data.take (s.data.length - suf.data.length)⟩ else s

/-- Python `s[1:]`. -/
def pyDrop1 (s : String) : String := ⟨s.data.drop 1⟩

/-- Auxiliary for `pyContains`: occurrence of `sub` anywhere in the list. -/
def pyContainsAux (sub : List Char) : List Char → Bool
  | [] => sub.isEmpty
  | c :: rest => sub.isPrefixOf (c :: rest) || pyContainsAux sub rest

/-- Python `in` operator on strings (substring test). -/
def pyContains (s sub : String) : Bool := pyContainsAux sub.data s.data

/-- Python posix `os.path.basename`: everything after the last slash. -/
def pyBasename (p : String) : String := (pySplitSep '/' p).getLastD ""

/-- `True` when every underscore in the token is flanked by digits and the
token is a nonempty pure digit/underscore string starting and ending with a
digit — the digit-group grammar shared by Python `int()` and `float()`. -/
def udigitsOk (l : List Char) : Bool :=
  !l.isEmpty && l.all (fun c => c.isDigit || c = '_')
    && (l.headD '_').isDigit && (l.getLastD '_').isDigit && noDoubleUnderscore l
where
  /-- No two adjacent underscores. -/
  noDoubleUnderscore : List Char → Bool
    | c :: d :: rest => !(c = '_' && d = '_') && noDoubleUnderscore (d :: rest)
    | _ => true

/-- Numeric value of an ASCII digit string (underscores already removed). -/
def natOfDigits (l : List Char) : Nat :=
  l.foldl (fun a c => a * 10 + (c.toNat - '0'.toNat)) 0

/-- Python `int(s)` on a string: strips whitespace, accepts an optional
sign followed by digits with underscores between digits; `none` models the
`ValueError` raised otherwise.  (ASCII digits only, as used throughout.) -/
def pyInt (s : String) : Option Int :=
  let l := (pyStrip s).data
  let sgnBody : Int × List Char :=
    match l with
    | '+' :: r => (1, r)
    | '-' :: r => (-1, r)
    | r => (1, r)
  if udigitsOk sgnBody.2 then
    some (sgnBody.1 * (natOfDigits (sgnBody.2.filter (fun c => c ≠ '_')) : Int))
  else none

/-- Splits a character list at the first character satisfying `p`;
returns the part before it and, when found, the part after it. -/
def breakAtFirst (p : Char → Bool) : List Char → List Char × Option (List Char)
  | [] => ([], none)
  | c :: rest =>
    if p c then ([], some rest)
    else
      let r := breakAtFirst p rest
      (c :: r.1, r.2)

/-- Mantissa grammar of Python `float()`: digit groups around at most one
dot, with at least one digit overall. -/
def mantissaOk (l : List Char) : Bool :=
  let r := breakAtFirst (fun c => c = '.') l
  match r.2 with
  | none => udigitsOk l
  | some frac =>
    (r.1.isEmpty || udigitsOk r.1) && (frac.isEmpty || udigitsOk frac)
      && !(r.1.isEmpty && frac.isEmpty)

/-- Exponent grammar of Python `float()`: optional sign then a digit group. -/
def expOk (l : List Char) : Bool :=
  match l with
  | '+' :: r => udigitsOk r
  | '-' :: r => udigitsOk r
  | r => udigitsOk r

/-- `True` exactly when Python `float(s)` succeeds (ASCII forms): optional
surrounding whitespace, optional sign, then `inf`/`infinity`/`nan`
(case-insensitive) or a mantissa with an optional exponent. -/
def isPyFloat (s : String) : Bool :=
  let l := (pyStrip s).data
  let body : List Char :=
    match l with
    | '+' :: r => r
    | '-' :: r => r
    | r => r
  let lowered := body.map pyLowerChar
  if lowered = "inf".data || lowered = "infinity".data || lowered = "nan".data then
    true
  else
    let r := breakAtFirst (fun c => c = 'e' || c = 'E') body
    mantissaOk r.1 && (match r.2 with | none => true | some ex => expOk ex)

/-! ### Shared process model -/

/-- Observable outcome of running one external binary to completion. -/
structure ProcResult where
  returncode : Int
  stdout : String
deriving DecidableEq, Repr

/-- Python exceptions the harness can raise. -/
inductive PyError where
  | assertionError
  | valueError (msg : String)
  | indexError
deriving DecidableEq, Repr

/-! ### test.py: configuration constants (parameterized by the CLI value `Z`) -/

def BUILD_DIR : String := "build"
def DATA_DIR : String := "data"
def GEN_DATA_DIR : String := "gen"
def GENERATOR (Z : Nat) : String := "data_gen_z" ++ toString Z

def FACILITY_JUDGE (Z : Nat) : String := "facility_set_cost_z" ++ toString Z

def FACILITY_SOLUTIONS (Z : Nat) : List String :=
  ["mettu_plaxton_z" ++ toString Z] ++ List.replicate 2 ("facility_set_z" ++ toString Z)

def FACILITY_SOLUTION_ARGS : List (List String) :=
  [[], ["grid_hashing", "60042651f648e052"], ["face_hashing", "60042651f648e052"]]

def FACILITY_COST : Nat := 1

def CLUSTERING_JUDGE (Z : Nat) : String := "clustering_cost_z" ++ toString Z

def CLUSTERING_SOLUTIONS (Z : Nat) : List String :=
  List.replicate (if Z = 1 then 2 else 1) ("scikit_z" ++ toString Z)
    ++ List.replicate 2 ("clustering_z" ++ toString Z)

def CLUSTERING_SOLUTION_ARGS (Z : Nat) : List (List String) :=
  (if Z = 1 then [["alternate"], ["pam"]] else [[""]])
    ++ [["grid_hashing", "60042651f648e052"], ["face_hashing", "60042651f648e052"]]

def SIZES : List Nat := [100, 500, 1000, 5000, 10000, 50000, 100000, 500000, 1000000]

def DIMENSIONS : List Nat := [2, 5, 10]

/-! ### test.py: gen / solve / judge -/

/-- File path `gen` writes the generator's standard output to. -/
def genFilepath (size dimension : Nat) : String :=
  DATA_DIR ++ "/" ++ GEN_DATA_DIR ++ "/gen_n" ++ toString size ++ "_d"
    ++ toString dimension ++ ".in"

/-- Line `gen` feeds to the generator binary on standard input. -/
def genStdin (size dimension k_or_cost : Nat) : String :=
  toString size ++ " " ++ toString dimension ++ " " ++ toString k_or_cost ++ "\n"

/-- `gen`: asserts that the generator subprocess exited with code 0 and
returns the instance file path. -/
def gen (size dimension : Nat) (proc : ProcResult) : Except PyError String :=
  if proc.returncode = 0 then .ok (genFilepath size dimension) else .error .assertionError

/-- The `f".{solution}.{'.'.join(args)}.out"` part of `solve`'s output path. -/
def outputSuffix (solution : String) (args : List String) : String :=
  "." ++ solution ++ "." ++ pyJoin "." args ++ ".out"

/-- Output file path `solve` derives from the input path, the solver
identifier and the dot-joined argument list. -/
def outputPath (input_path solution : String) (args : List String) : String :=
  pyRemovesuffix input_path ".in" ++ outputSuffix solution args

/-- `solve`: waits for the solver subprocess, asserts exit code 0, and
returns the output path together with the measured wall-clock time (a
reading of the external clock, passed in abstractly). -/
def solve (input_path solution : String) (args : List String) (rc : Int) (elapsed : Nat) :
    Except PyError (String × Nat) :=
  if rc = 0 then .ok (outputPath input_path solution args, elapsed) else .error .assertionError

/-- Static description of one `subprocess.Popen` invocation. -/
structure PopenSpec where
  argv : List String
  stdinFile : Option String
  stdoutPiped : Bool
  env : Option (List (String × String))
deriving DecidableEq, Repr

/-- The `Popen` call `judge` makes: the judge binary with the instance on
standard input, standard output piped back, and an explicit one-entry
environment mapping. -/
def judgePopen (judgeName input_path output_path : String) : PopenSpec :=
  { argv := [BUILD_DIR ++ "/" ++ judgeName]
    stdinFile := some input_path
    stdoutPiped := true
    env := some [("SOLUTION", output_path)] }

/-- Environment a spawned child actually sees, per `Popen` semantics: an
explicit `env` argument replaces the parent environment wholesale. -/
def childEnv (parentEnv : List (String × String)) (spec : PopenSpec) :
    List (String × String) :=
  match spec.env with
  | none => parentEnv
  | some e => e

/-- `judge`'s handling of the subprocess outcome: the stripped standard
output is parsed as a Python float (the score is represented here by its
validated literal text); the return code is never inspected. -/
def judgeParse (proc : ProcResult) : Except PyError String :=
  let s := pyStrip proc.stdout
  if isPyFloat s then .ok s
  else .error (.valueError ("could not convert string to float: " ++ s))

/-! ### test.py: per-instance test loops and the CSV rows they append -/

/-- Observable outcome of one (solver run + judge) combination, as the row
writer consumes it: the solver output file's content, the formatted score
string and the stringified elapsed time. -/
structure RunOutcome where
  outputContent : String
  scoreStr : String
  timeStr : String

/-- The `zip(FACILITY_SOLUTIONS, FACILITY_SOLUTION_ARGS)` combinations. -/
def flCombos (Z : Nat) : List (String × List String) :=
  (FACILITY_SOLUTIONS Z).zip FACILITY_SOLUTION_ARGS

/-- The `zip(CLUSTERING_SOLUTIONS, CLUSTERING_SOLUTION_ARGS)` combinations. -/
def clCombos (Z : Nat) : List (String × List String) :=
  (CLUSTERING_SOLUTIONS Z).zip (CLUSTERING_SOLUTION_ARGS Z)

/-- CSV row appended by `test_facility_location` for one combination. -/
def flRow (inp solution : String) (args : List String) (score timeStr : String) :
    List String :=
  [pyBasename inp, solution, pyJoin " " args, score, timeStr]

/-- Cluster count computed by `test_clustering`: the number of lines of the
solver's output file whose strip is nonempty. -/
def countCenters (content : String) : Nat :=
  ((pySplitSep '\n' content).filter (fun r => pyStrip r != "")).length

/-- CSV row appended by `test_clustering` for one combination. -/
def clRow (inp solution : String) (args : List String) (centers : Nat)
    (score timeStr : String) : List String :=
  [pyBasename inp, solution, pyJoin " " args, toString centers, score, timeStr]

/-- Rows appended by `test_facility_location` on one instance, given the
observable outcome of each solver run (`oracle`). -/
def testFacilityRows (Z : Nat) (inp : String) (oracle : String → List String → RunOutcome) :
    List (List String) :=
  (flCombos Z).map (fun c =>
    flRow inp c.1 c.2 (oracle c.1 c.2).scoreStr (oracle c.1 c.2).timeStr)

/-- Rows appended by `test_clustering` on one instance, given the
observable outcome of each solver run (`oracle`). -/
def testClusteringRows (Z : Nat) (inp : String) (oracle : String → List String → RunOutcome) :
    List (List String) :=
  (clCombos Z).map (fun c =>
    clRow inp c.1 c.2 (countCenters (oracle c.1 c.2).outputContent)
      (oracle c.1 c.2).scoreStr (oracle c.1 c.2).timeStr)

/-! ### test.py: static-dataset transforms -/

/-- The parsed iris source: `f.read().strip().split("\n")`, each line split
on commas. -/
def irisPlants (content : String) : List (List String) :=
  (pySplitSep '\n' (pyStrip content)).map (fun p => pySplitSep ',' p)

/-- Lines `gen_iris` writes (without trailing newlines): the header
`"<count> <columns-1> 3"` followed by each record's fields minus the last
(the label), space-joined.  The column count is taken from the first
record, exactly as `len(plants[0])` does; the subtraction is over `Int`
because Python's is. -/
def gen_iris_lines (content : String) : List String :=
  let plants := irisPlants content
  (toString plants.length ++ " " ++ toString ((plants.headD []).length - 1 : Int) ++ " 3")
    :: plants.map (fun p => pyJoin " " p.dropLast)

/-- Lines `gen_imdb` writes, from the parsed CSV records (the `csv.reader`
output; CSV wire parsing is the library's, external to this code): the
header row is dropped, then the header line `"<count> <columns-2> 200"` is
followed by each record's fields minus the first two (the id columns),
space-joined.  Errors with `IndexError` when there is no data row, as
`words[0]` does. -/
def gen_imdb_lines (rows : List (List String)) : Except PyError (List String) :=
  let words := rows.drop 1
  match words with
  | [] => .error .indexError
  | w0 :: _ =>
    .ok ((toString words.length ++ " " ++ toString (w0.length - 2 : Int) ++ " 200")
      :: words.map (fun w => pyJoin " " (w.drop 2)))

/-! ### test.py: the synthetic sweep in `main` -/

inductive Target where
  | fl
  | cl
deriving DecidableEq, Repr

/-- Model of Python `int(size ** 0.5)`.  `size ** 0.5` is the correctly
rounded IEEE-754 double square root of `size`; for every size in `SIZES`
its floor equals the exact integer square root (the perfect squares 100,
10000 and 1000000 have exactly representable roots, and every other
configured size's root is at distance more than 1/4 from the nearest
integer, many orders of magnitude above the double rounding error), so
`int` of it is the integer square root. -/
def pyIsqrt (n : Nat) : Nat := Nat.sqrt n

/-- The generator invocations `(size, dimension, parameter)` made by the
synthetic sweep in `main`, in order. -/
def sweepGenParams (target : Target) : List (Nat × Nat × Nat) :=
  SIZES.flatMap (fun size => DIMENSIONS.map (fun dimension =>
    (size, dimension,
      match target with
      | .fl => FACILITY_COST
      | .cl => pyIsqrt size)))

/-! ### graphs.py: configuration -/

def IMG_DIR : String := "img"

def FILES : List String := ["results_fl_z1.csv", "results_cl_z1.csv", "results_cl_z2.csv"]

def FL_VALUES : List String := ["Cost", "Time [s]"]

def CL_VALUES : List String := "Clusters" :: FL_VALUES

def PLOT_DIMENSIONS : List Int := [2, 5, 10]

def PLOT_SIZES : List Int := [10000]

/-! ### graphs.py: row classification and bucket grouping in `plot_file` -/

/-- The row-classification step of `plot_file`'s loop: from the raw
`solution` field and the whitespace-split `args` tokens to the display
label used for styling. -/
def classifySolution (solution : String) (args : List String) : Except PyError String :=
  if args.length = 2 then
    if args.headD "" = "grid_hashing" then .ok "Grid hashing"
    else if args.headD "" = "face_hashing" then .ok "Face hashing"
    else .error (.valueError ("Unrecognized argument: " ++ args.headD ""))
  else if pyStartsWith solution "mettu_plaxton" then .ok "Mettu-Plaxton"
  else if pyStartsWith solution "scikit" then
    if solution = "scikit_z1" then
      match args with
      | [] => .error .indexError
      | a :: _ =>
        .ok ("K-medoids " ++ (if a = "alternate" then "alternate" else "PAM")
          ++ " (scikit-learn-extra)")
    else .ok "K-means++ (scikit-learn)"
  else .error (.valueError "Unknown solution")

/-- Tagged bucket entry `(n-or-d, display label, numeric params)`.  The
`map(float, params)` values are represented by their (validated) literal
strings. -/
abbrev Entry := Int × String × List String

/-- The `gen`-branch of `plot_file`'s loop body: `inp.replace(".", "_")`
is split on underscores and must unpack into exactly four parts, `n` and
`d` are parsed by `int()` from those parts minus their first character,
and the row's trailing fields must all parse under `float()`.  On success
it returns the `by_dimension` key/entry and the `by_size` key/entry the
row is appended under.  Error messages of Python's runtime exceptions
(unpack/int/float failures) are abbreviated; only the raising matters. -/
def genEntries (inp label : String) (params : List String) :
    Except PyError ((Int × Entry) × (Int × Entry)) :=
  match pySplitSep '_' (pyReplaceChar '.' '_' inp) with
  | [_, npart, dpart, _] =>
    match pyInt (pyDrop1 npart), pyInt (pyDrop1 dpart) with
    | some n, some d =>
      if params.all (fun p => isPyFloat p) then
        .ok ((d, (n, label, params)), (n, (d, label, params)))
      else .error (.valueError "could not convert string to float")
    | _, _ => .error (.valueError "invalid literal for int")
  | _ => .error (.valueError "values to unpack mismatch")

/-- Processing of one CSV row by `plot_file`'s loop: tuple unpacking,
classification, then the `inp.startswith("gen")` test.  A recognized
synthetic row yields its `by_dimension` key/entry and its `by_size`
key/entry; any other row yields `none` (skipped). -/
def processLine (line : List String) :
    Except PyError (Option ((Int × Entry) × (Int × Entry))) :=
  match line with
  | inp :: solution :: argsStr :: params =>
    (classifySolution solution (pySplit argsStr)).bind (fun label =>
      if pyStartsWith inp "gen" then (genEntries inp label params).map some
      else .ok none)
  | _ => .error (.valueError "values to unpack mismatch")

/-- The accumulation of `by_dimension` and `by_size` over a whole CSV file,
kept as tagged `(key, entry)` lists in file order (the `defaultdict`
grouping is determined by these tags). -/
def plotBuckets : List (List String) →
    Except PyError (List (Int × Entry) × List (Int × Entry))
  | [] => .ok ([], [])
  | line :: rest =>
    match processLine line with
    | .error e => .error e
    | .ok none => plotBuckets rest
    | .ok (some (de, se)) =>
      match plotBuckets rest with
      | .error e => .error e
      | .ok (bd, bs) => .ok (de :: bd, se :: bs)

/-! ### graphs.py: figure naming in `plot_instance` and `plot_file` -/

/-- Application of `plot_instance`'s character `REPLACE` table. -/
def fignameChars (s : String) : String :=
  ⟨s.data.flatMap (fun c =>
    if c = ' ' then ['_']
    else if c = '(' then []
    else if c = ')' then []
    else if c = ',' then []
    else if c = '=' then []
    else [c])⟩

/-- Figure filename `plot_instance` derives from the chart title and the
metric name. -/
def figname (title val_name : String) : String :=
  fignameChars (pyReplace (pyLower (pyReplace title "(" (val_name ++ " "))) " [s]" "")
    ++ ".svg"

/-- Python `filename[-5]` as a one-character string. -/
def charAtNeg5 (s : String) : String := ⟨[s.data.getD (s.data.length - 5) ' ']⟩

/-- Chart-title template `plot_file` builds for one CSV file. -/
def plotName (filename : String) : String :=
  (if pyContains filename "fl" then "Facility Location" else "Clustering")
    ++ " ($$, z=" ++ charAtNeg5 filename ++ ")"

/-- Metric list `plot_instance` iterates for rows of one configured file:
facility-location rows produce 4-wide value tuples (`FL_VALUES`),
clustering rows 5-wide ones (`CL_VALUES`). -/
def fileMetrics (filename : String) : List String :=
  if pyContains filename "fl" then FL_VALUES else CL_VALUES

/-- Axis tags substituted for `$$`: one per plotted dimension and size. -/
def axisTags : List String :=
  PLOT_DIMENSIONS.map (fun d => "d=" ++ toString d)
    ++ PLOT_SIZES.map (fun n => "n=" ++ toString n)

/-- All (chart title, metric) pairs the configured `FILES`, the plotted
dimensions/sizes and the per-target metric lists can produce. -/
def configuredPairs : List (String × String) :=
  FILES.flatMap (fun f =>
    axisTags.flatMap (fun tag =>
      (fileMetrics f).map (fun m => (pyReplace (plotName f) "$$" tag, m))))

/-! ### Helper lemmas -/

theorem string_data_append (a b : String) : (a ++ b).data = a.data ++ b.data := by
  cases a; cases b; rfl

theorem string_append_left_cancel {s t u : String} (h : s ++ t = s ++ u) : t = u := by
  cases t with
  | mk td =>
    cases u with
    | mk ud =>
      have hd := congrArg String.data h
      rw [string_data_append, string_data_append] at hd
      exact congrArg String.mk (List.append_cancel_left hd)

theorem outputPath_ne_of_suffix_ne (inp : String) {s1 s2 : String} {a1 a2 : List String}
    (h : outputSuffix s1 a1 ≠ outputSuffix s2 a2) :
    outputPath inp s1 a1 ≠ outputPath inp s2 a2 :=
  fun hp => h (string_append_left_cancel hp)

theorem pySplitSepAux_ne_nil (sep : Char) (l acc : List Char) :
    pySplitSepAux sep l acc ≠ [] := by
  induction l generalizing acc with
  | nil => simp [pySplitSepAux]
  | cons c rest ih =>
    by_cases hc : c = sep
    · simp [pySplitSepAux, hc]
    · simpa [pySplitSepAux, hc] using ih (c :: acc)

theorem irisPlants_ne_nil (content : String) : irisPlants content ≠ [] := by
  intro h
  rw [irisPlants, List.map_eq_nil_iff] at h
  exact pySplitSepAux_ne_nil '\n' (pyStrip content).data [] h

/-- A successful `processLine` contributes bucket entries exactly when the
instance name starts with `gen`. -/
theorem processLine_isSome {line : List String}
    {out : Option ((Int × Entry) × (Int × Entry))}
    (h : processLine line = .ok out) :
    out.isSome = pyStartsWith (line.headD "") "gen" := by
  match line with
  | [] => exact absurd h (by simp [processLine])
  | [a] => exact absurd h (by simp [processLine])
  | [a, b] => exact absurd h (by simp [processLine])
  | inp :: solution :: argsStr :: params =>
    simp only [processLine] at h
    cases hc : classifySolution solution (pySplit argsStr) with
    | error e => rw [hc] at h; exact absurd h (by simp [Except.bind])
    | ok label =>
      rw [hc] at h
      simp only [Except.bind] at h
      by_cases hg : pyStartsWith inp "gen"
      · rw [if_pos hg] at h
        cases hge : genEntries inp label params with
        | error e => rw [hge] at h; exact absurd h (by simp [Except.map])
        | ok es =>
          rw [hge] at h
          simp only [Except.map] at h
          cases h
          simpa using hg
      · rw [if_neg hg] at h
        cases h
        simpa using hg

/-- The recognition boundary of `plot_file` is the `gen` prefix, not the
full `gen_n<int>_d<int>.in` naming pattern: a `gen`-prefixed name outside
that pattern is still parsed, and is bucketed whenever the parse happens
to succeed — dots become underscores, the first and last of the four
parts are ignored, and the `n`/`d` parts merely need integer tails. -/
theorem processLine_prefix_boundary :
    processLine ["gen.n100.d2.x", "mettu_plaxton_z1", "", "1.0", "2.0"]
      = .ok (some ((2, (100, "Mettu-Plaxton", ["1.0", "2.0"])),
                   (100, (2, "Mettu-Plaxton", ["1.0", "2.0"]))))
  ∧ processLine ["genn_n100_d2.in", "mettu_plaxton_z1", "", "1.0", "2.0"]
      = .ok (some ((2, (100, "Mettu-Plaxton", ["1.0", "2.0"])),
                   (100, (2, "Mettu-Plaxton", ["1.0", "2.0"])))) :=
  ⟨rfl, rfl⟩

theorem nat_sqrt_eq_of (k n : Nat) (h1 : k * k ≤ n) (h2 : n < (k + 1) * (k + 1)) :
    Nat.sqrt n = k :=
  Nat.le_antisymm (Nat.le_of_lt_succ (Nat.sqrt_lt.2 h2)) (Nat.le_sqrt.2 h1)

theorem sqrt_100 : Nat.sqrt 100 = 10 := nat_sqrt_eq_of _ _ (by norm_num) (by norm_num)

theorem sqrt_500 : Nat.sqrt 500 = 22 := nat_sqrt_eq_of _ _ (by norm_num) (by norm_num)

theorem sqrt_1000 : Nat.sqrt 1000 = 31 := nat_sqrt_eq_of _ _ (by norm_num) (by norm_num)

theorem sqrt_5000 : Nat.sqrt 5000 = 70 := nat_sqrt_eq_of _ _ (by norm_num) (by norm_num)

theorem sqrt_10000 : Nat.sqrt 10000 = 100 := nat_sqrt_eq_of _ _ (by norm_num) (by norm_num)

theorem sqrt_50000 : Nat.sqrt 50000 = 223 := nat_sqrt_eq_of _ _ (by norm_num) (by norm_num)

theorem sqrt_100000 : Nat.sqrt 100000 = 316 := nat_sqrt_eq_of _ _ (by norm_num) (by norm_num)

theorem sqrt_500000 : Nat.sqrt 500000 = 707 := nat_sqrt_eq_of _ _ (by norm_num) (by norm_num)

theorem sqrt_1000000 : Nat.sqrt 1000000 = 1000 :=
  nat_sqrt_eq_of _ _ (by norm_num) (by norm_num)

/-! ### Claim C1 -/

/-- **C1** (counterexample to the claim as stated): the Result Recorder's
facility-location row has 5 fields, not 4, and the clustering row has 6
fields, not 5 — at the concrete first combination of a run with `Z = 1`. -/
theorem c1_counterexample :
    ((testFacilityRows 1 "data/gen/gen_n100_d2.in"
        (fun _ _ => ⟨"", "0.5", "0.01"⟩)).get? 0).map List.length = some 5
  ∧ ((testClusteringRows 1 "data/iris/iris.in"
        (fun _ _ => ⟨"c1\nc2\n", "0.5", "0.01"⟩)).get? 0).map List.length = some 6 :=
  ⟨rfl, rfl⟩

/-- **C1** (amended): for every completed (instance, solver, args)
combination the Result Recorder appends exactly one CSV row — the row list
is in one-to-one positional correspondence with the configured
combinations — whose shape is 5 fields for the facility-location target
and 6 fields for the clustering target, where the clustering row's fourth
field is the cluster count, equal to the number of non-blank lines of that
solver run's output file. -/
theorem c1_row_shapes (Z : Nat) (inp : String)
    (oracle : String → List String → RunOutcome) :
    (testFacilityRows Z inp oracle).length = (flCombos Z).length
  ∧ (∀ r ∈ testFacilityRows Z inp oracle, r.length = 5)
  ∧ (testClusteringRows Z inp oracle).length = (clCombos Z).length
  ∧ (∀ r ∈ testClusteringRows Z inp oracle, r.length = 6)
  ∧ (∀ i sol args, (clCombos Z).get? i = some (sol, args) →
      ((testClusteringRows Z inp oracle).get? i).bind (fun r => r.get? 3)
        = some (toString (countCenters (oracle sol args).outputContent))) := by
  refine ⟨List.length_map _ _, ?_, List.length_map _ _, ?_, ?_⟩
  · intro r hr
    obtain ⟨c, _, rfl⟩ := List.mem_map.1 hr
    rfl
  · intro r hr
    obtain ⟨c, _, rfl⟩ := List.mem_map.1 hr
    rfl
  · intro i sol args h
    rw [List.get?_eq_getElem?] at h
    simp [testClusteringRows, List.get?_eq_getElem?, h, clRow]

/-- Witness for `c1_row_shapes` at a concrete clustering run. -/
theorem c1_row_shapes_witness :
    (clCombos 1).get? 0 = some ("scikit_z1", ["alternate"])
  ∧ ((testClusteringRows 1 "data/iris/iris.in"
        (fun _ _ => ⟨"c1\nc2\n", "0.5", "0.01"⟩)).get? 0).bind (fun r => r.get? 3)
      = some "2" := by
  refine ⟨rfl, ?_⟩
  exact (c1_row_shapes 1 "data/iris/iris.in"
    (fun _ _ => ⟨"c1\nc2\n", "0.5", "0.01"⟩)).2.2.2.2 0 "scikit_z1" ["alternate"] rfl

/-! ### Claim C2 -/

/-- **C2** (counterexample to the claim as stated): a judge subprocess
exiting with the non-zero code 1 is not surfaced at all — `judge` never
inspects the return code, and here happily returns the parsed score. -/
theorem c2_counterexample :
    (ProcResult.mk 1 "3.5\n").returncode ≠ 0
  ∧ judgeParse ⟨1, "3.5\n"⟩ = .ok "3.5" :=
  ⟨by decide, rfl⟩

/-- **C2** (amended): a generator or solver subprocess exiting non-zero is
surfaced as an assertion failure aborting the run; the judge's return code
is never checked — its outcome depends only on its standard output. -/
theorem c2_subprocess_failures (size dimension : Nat) (inp sol : String)
    (args : List String) (rc : Int) (elapsed : Nat) (proc proc' : ProcResult)
    (hg : proc.returncode ≠ 0) (hs : rc ≠ 0) (hj : proc.stdout = proc'.stdout) :
    gen size dimension proc = .error .assertionError
  ∧ solve inp sol args rc elapsed = .error .assertionError
  ∧ judgeParse proc = judgeParse proc' := by
  refine ⟨?_, ?_, ?_⟩
  · simp [gen, hg]
  · simp [solve, hs]
  · simp [judgeParse, hj]

/-- Witness for `c2_subprocess_failures` at concrete subprocess outcomes. -/
theorem c2_subprocess_failures_witness :
    gen 100 2 ⟨1, "3.5\n"⟩ = .error .assertionError
  ∧ solve "data/gen/gen_n100_d2.in" "mettu_plaxton_z1" [] 1 7 = .error .assertionError
  ∧ judgeParse ⟨1, "3.5\n"⟩ = judgeParse ⟨0, "3.5\n"⟩ :=
  c2_subprocess_failures 100 2 "data/gen/gen_n100_d2.in" "mettu_plaxton_z1" [] 1 7
    ⟨1, "3.5\n"⟩ ⟨0, "3.5\n"⟩ (by decide) (by decide) (by rfl)

/-! ### Claim C3 -/

/-- **C3**: a CSV row whose args field splits into exactly two tokens, the
first of which is neither `grid_hashing` nor `face_hashing`, makes the plot
renderer's classification raise the explicit unrecognized-argument
`ValueError` instead of returning any display label. -/
theorem c3_unrecognized_argument (solution argsStr a b : String)
    (hsplit : pySplit argsStr = [a, b])
    (h1 : a ≠ "grid_hashing") (h2 : a ≠ "face_hashing") :
    classifySolution solution (pySplit argsStr)
      = .error (.valueError ("Unrecognized argument: " ++ a)) := by
  rw [hsplit]
  simp [classifySolution, h1, h2]

/-- Witness for `c3_unrecognized_argument` on a concrete two-token row. -/
theorem c3_unrecognized_argument_witness :
    pySplit "foo_hashing 60042651f648e052" = ["foo_hashing", "60042651f648e052"]
  ∧ classifySolution "facility_set_z1" (pySplit "foo_hashing 60042651f648e052")
      = .error (.valueError ("Unrecognized argument: " ++ "foo_hashing")) :=
  ⟨by decide, c3_unrecognized_argument "facility_set_z1" _ "foo_hashing"
    "60042651f648e052" (by decide) (by decide) (by decide)⟩

/-! ### Claim C4 -/

/-- **C4**: `solve`'s output path is a deterministic function of the input
name, the solver identifier and the dot-joined argument list; the three
configured facility-location variants on one instance yield three pairwise
distinct output paths, and their three CSV rows share the instance name in
the first field while the (solver, args) field pairs are pairwise
distinct. -/
theorem c4_output_paths (Z : Nat) (hz : Z = 1 ∨ Z = 2) (inp inp' : String)
    (oracle : String → List String → RunOutcome) :
    (∀ sol args args', pyRemovesuffix inp ".in" = pyRemovesuffix inp' ".in" →
        pyJoin "." args = pyJoin "." args' →
        outputPath inp sol args = outputPath inp' sol args')
  ∧ ((flCombos Z).map (fun c => outputPath inp c.1 c.2)).length = 3
  ∧ ((flCombos Z).map (fun c => outputPath inp c.1 c.2)).Nodup
  ∧ (∀ r ∈ testFacilityRows Z inp oracle, r.get? 0 = some (pyBasename inp))
  ∧ ((testFacilityRows Z inp oracle).map (fun r => (r.get? 1, r.get? 2))).Nodup := by
  refine ⟨?_, ?_, ?_, ?_, ?_⟩
  · intro sol args args' hbase hjoin
    simp only [outputPath, outputSuffix]
    rw [hbase, hjoin]
  · rcases hz with rfl | rfl <;> rfl
  · rcases hz with rfl | rfl
    · have h12 : outputSuffix "mettu_plaxton_z1" []
          ≠ outputSuffix "facility_set_z1" ["grid_hashing", "60042651f648e052"] := by decide
      have h13 : outputSuffix "mettu_plaxton_z1" []
          ≠ outputSuffix "facility_set_z1" ["face_hashing", "60042651f648e052"] := by decide
      have h23 : outputSuffix "facility_set_z1" ["grid_hashing", "60042651f648e052"]
          ≠ outputSuffix "facility_set_z1" ["face_hashing", "60042651f648e052"] := by decide
      simp only [flCombos, FACILITY_SOLUTIONS, FACILITY_SOLUTION_ARGS, List.zip,
        List.zipWith, List.map, List.nodup_cons, List.mem_cons, List.mem_singleton,
        List.not_mem_nil, List.nodup_nil, List.replicate]
      refine ⟨?_, ?_, not_false, trivial⟩
      · rintro (h | h | h)
        · exact outputPath_ne_of_suffix_ne inp h12 h
        · exact outputPath_ne_of_suffix_ne inp h13 h
        · exact h
      · rintro (h | h)
        · exact outputPath_ne_of_suffix_ne inp h23 h
        · exact h
    · have h12 : outputSuffix "mettu_plaxton_z2" []
          ≠ outputSuffix "facility_set_z2" ["grid_hashing", "60042651f648e052"] := by decide
      have h13 : outputSuffix "mettu_plaxton_z2" []
          ≠ outputSuffix "facility_set_z2" ["face_hashing", "60042651f648e052"] := by decide
      have h23 : outputSuffix "facility_set_z2" ["grid_hashing", "60042651f648e052"]
          ≠ outputSuffix "facility_set_z2" ["face_hashing", "60042651f648e052"] := by decide
      simp only [flCombos, FACILITY_SOLUTIONS, FACILITY_SOLUTION_ARGS, List.zip,
        List.zipWith, List.map, List.nodup_cons, List.mem_cons, List.mem_singleton,
        List.not_mem_nil, List.nodup_nil, List.replicate]
      refine ⟨?_, ?_, not_false, trivial⟩
      · rintro (h | h | h)
        · exact outputPath_ne_of_suffix_ne inp h12 h
        · exact outputPath_ne_of_suffix_ne inp h13 h
        · exact h
      · rintro (h | h)
        · exact outputPath_ne_of_suffix_ne inp h23 h
        · exact h
  · intro r hr
    obtain ⟨c, _, rfl⟩ := List.mem_map.1 hr
    rfl
  · rcases hz with rfl | rfl
    · have hmap : (testFacilityRows 1 inp oracle).map (fun r => (r.get? 1, r.get? 2))
          = [(some "mettu_plaxton_z1", some ""),
             (some "facility_set_z1", some "grid_hashing 60042651f648e052"),
             (some "facility_set_z1", some "face_hashing 60042651f648e052")] := rfl
      rw [hmap]
      decide
    · have hmap : (testFacilityRows 2 inp oracle).map (fun r => (r.get? 1, r.get? 2))
          = [(some "mettu_plaxton_z2", some ""),
             (some "facility_set_z2", some "grid_hashing 60042651f648e052"),
             (some "facility_set_z2", some "face_hashing 60042651f648e052")] := rfl
      rw [hmap]
      decide

/-- Witness for `c4_output_paths` at `Z = 1` on a concrete instance. -/
theorem c4_output_paths_witness :
    outputPath "data/gen/gen_n100_d2.in" "mettu_plaxton_z1" []
      = outputPath "data/gen/gen_n100_d2.in" "mettu_plaxton_z1" []
  ∧ ((flCombos 1).map
      (fun c => outputPath "data/gen/gen_n100_d2.in" c.1 c.2)).Nodup
  ∧ ((testFacilityRows 1 "data/gen/gen_n100_d2.in"
      (fun _ _ => ⟨"", "0.5", "0.01"⟩)).map (fun r => (r.get? 1, r.get? 2))).Nodup := by
  have h := c4_output_paths 1 (Or.inl rfl) "data/gen/gen_n100_d2.in"
    "data/gen/gen_n100_d2.in" (fun _ _ => ⟨"", "0.5", "0.01"⟩)
  exact ⟨h.1 "mettu_plaxton_z1" [] [] rfl rfl, h.2.2.1, h.2.2.2.2⟩

/-! ### Claim C5 -/

/-- **C5** (counterexample to the claim as stated): the row for instance
`general.in` — a name that does not match the synthetic-generation naming
pattern — is not skipped: because the name starts with `gen`, `plot_file`
tries to parse it and here the parse fails, raising a `ValueError`, so
this row is neither skipped nor bucketed. -/
theorem c5_counterexample :
    pyStartsWith "general.in" "gen" = true
  ∧ processLine ["general.in", "mettu_plaxton_z1", "", "1.0", "2.0"]
      = .error (.valueError "values to unpack mismatch") :=
  ⟨rfl, rfl⟩

/-- **C5** (amended): the recognition boundary is the `gen` prefix, not
the full synthetic naming pattern.  On a successfully processed CSV file,
every row whose instance name starts with `gen` contributes exactly one
tagged entry to the `by_dimension` grouping and exactly one to the
`by_size` grouping (each grouping partitions those rows disjointly), and
every row whose instance name does not start with `gen` is skipped,
appearing in no bucket and no plot.  A `gen`-prefixed row is never
skipped: when its name fails to parse (as with `general.in`, see the
counterexample) processing raises instead, and when the parse succeeds the
row is bucketed even if the name lies outside the
`gen_n<int>_d<int>.in` pattern (see `processLine_prefix_boundary`). -/
theorem c5_partition (lines : List (List String)) (bd bs : List (Int × Entry))
    (h : plotBuckets lines = .ok (bd, bs)) :
    bd.length = lines.countP (fun l => pyStartsWith (l.headD "") "gen")
  ∧ bs.length = lines.countP (fun l => pyStartsWith (l.headD "") "gen")
  ∧ (∀ l ∈ lines, pyStartsWith (l.headD "") "gen" = false →
      processLine l = .ok none) := by
  induction lines generalizing bd bs with
  | nil =>
    simp only [plotBuckets] at h
    cases h
    simp
  | cons line rest ih =>
    simp only [plotBuckets] at h
    cases hpl : processLine line with
    | error e => rw [hpl] at h; cases h
    | ok out =>
      rw [hpl] at h
      cases out with
      | none =>
        have hg := processLine_isSome hpl
        simp only [Option.isSome_none] at hg
        obtain ⟨h1, h2, h3⟩ := ih _ _ h
        refine ⟨?_, ?_, ?_⟩
        · rw [List.countP_cons, ← hg]; simpa using h1
        · rw [List.countP_cons, ← hg]; simpa using h2
        · intro l hl hfalse
          rcases List.mem_cons.1 hl with rfl | hl'
          · exact hpl
          · exact h3 l hl' hfalse
      | some es =>
        have hg := processLine_isSome hpl
        simp only [Option.isSome_some] at hg
        obtain ⟨de, se⟩ := es
        cases hrest : plotBuckets rest with
        | error e => rw [hrest] at h; cases h
        | ok pair =>
          obtain ⟨bd', bs'⟩ := pair
          rw [hrest] at h
          cases h
          obtain ⟨h1, h2, h3⟩ := ih _ _ hrest
          refine ⟨?_, ?_, ?_⟩
          · rw [List.countP_cons, ← hg]; simp [h1]
          · rw [List.countP_cons, ← hg]; simp [h2]
          · intro l hl hfalse
            rcases List.mem_cons.1 hl with rfl | hl'
            · rw [hfalse] at hg; cases hg
            · exact h3 l hl' hfalse

/-- Witness for `c5_partition` on a concrete two-row file: the static
iris row is skipped, the synthetic row lands in one bucket of each
grouping. -/
theorem c5_partition_witness :
    plotBuckets
        [["iris.in", "scikit_z1", "alternate", "3", "1.0", "0.5"],
         ["gen_n100_d2.in", "mettu_plaxton_z1", "", "1.0", "2.0"]]
      = .ok ([(2, (100, "Mettu-Plaxton", ["1.0", "2.0"]))],
             [(100, (2, "Mettu-Plaxton", ["1.0", "2.0"]))])
  ∧ [(2, ((100 : Int), "Mettu-Plaxton", ["1.0", "2.0"]))].length
      = List.countP (fun l => pyStartsWith (l.headD "") "gen")
          [["iris.in", "scikit_z1", "alternate", "3", "1.0", "0.5"],
           ["gen_n100_d2.in", "mettu_plaxton_z1", "", "1.0", "2.0"]]
  ∧ processLine ["iris.in", "scikit_z1", "alternate", "3", "1.0", "0.5"] = .ok none := by
  have h := c5_partition
    [["iris.in", "scikit_z1", "alternate", "3", "1.0", "0.5"],
     ["gen_n100_d2.in", "mettu_plaxton_z1", "", "1.0", "2.0"]]
    [(2, (100, "Mettu-Plaxton", ["1.0", "2.0"]))]
    [(100, (2, "Mettu-Plaxton", ["1.0", "2.0"]))] rfl
  exact ⟨rfl, h.1,
    h.2.2 ["iris.in", "scikit_z1", "alternate", "3", "1.0", "0.5"]
      (List.mem_cons_self _ _) rfl⟩

/-! ### Claim C6 -/

/-- **C6**: figure filename derivation is a function of the chart title and
metric name alone (hence deterministic), and on the configured set of
(title, metric) pairs it is injective: the 32 derived filenames are
pairwise distinct; each ends in `.svg` and contains no uppercase letter. -/
theorem c6_figname_injective :
    (configuredPairs.map (fun p => figname p.1 p.2)).Nodup
  ∧ configuredPairs.all (fun p => pyEndsWith (figname p.1 p.2) ".svg") = true
  ∧ configuredPairs.all
      (fun p => (figname p.1 p.2).data.all (fun c => !('A' ≤ c && c ≤ 'Z'))) = true :=
  ⟨by decide, by decide, by decide⟩

/-! ### Claim C7 -/

/-- **C7**: the iris transform emits the header
`"<count> <columns-1> 3"` (label column stripped, fixed `k = 3`) followed
by one feature vector per record; the word-frequency transform emits the
header `"<count> <columns-2> 200"` (two id columns stripped, fixed
`k = 200`) followed by one feature vector per data record. -/
theorem c7_transform_headers (content : String) (c : Nat)
    (hc : ∀ p ∈ irisPlants content, p.length = c)
    (rows : List (List String)) (out : List String)
    (him : gen_imdb_lines rows = .ok out) :
    (gen_iris_lines content).headD ""
      = toString (irisPlants content).length ++ " " ++ toString ((c : Int) - 1) ++ " 3"
  ∧ (gen_iris_lines content).length = (irisPlants content).length + 1
  ∧ (∀ i p, (irisPlants content).get? i = some p →
      (gen_iris_lines content).get? (i + 1) = some (pyJoin " " p.dropLast))
  ∧ out.headD ""
      = toString (rows.drop 1).length ++ " "
        ++ toString ((((rows.drop 1).headD []).length : Int) - 2) ++ " 200"
  ∧ out.length = (rows.drop 1).length + 1
  ∧ (∀ i w, (rows.drop 1).get? i = some w →
      out.get? (i + 1) = some (pyJoin " " (w.drop 2))) := by
  have hlen : ((irisPlants content).head?.getD []).length = c := by
    cases hp : irisPlants content with
    | nil => exact absurd hp (irisPlants_ne_nil content)
    | cons p0 ps =>
      simpa using hc p0 (by rw [hp]; exact List.mem_cons_self _ _)
  refine ⟨?_, ?_, ?_, ?_, ?_, ?_⟩
  · simp [gen_iris_lines, hlen]
  · simp [gen_iris_lines]
  · intro i p hp
    rw [List.get?_eq_getElem?] at hp
    simp [gen_iris_lines, List.get?_eq_getElem?, hp]
  · cases hd : rows.drop 1 with
    | nil => rw [gen_imdb_lines, hd] at him; cases him
    | cons w0 ws =>
      rw [gen_imdb_lines, hd] at him
      cases him
      simp [hd]
  · cases hd : rows.drop 1 with
    | nil => rw [gen_imdb_lines, hd] at him; cases him
    | cons w0 ws =>
      rw [gen_imdb_lines, hd] at him
      cases him
      simp [hd]
  · cases hd : rows.drop 1 with
    | nil => rw [gen_imdb_lines, hd] at him; cases him
    | cons w0 ws =>
      rw [gen_imdb_lines, hd] at him
      cases him
      intro i w hw
      rw [List.get?_eq_getElem?] at hw
      have hmap : (List.map (fun v => pyJoin " " (List.drop 2 v)) (w0 :: ws))[i]?
          = some (pyJoin " " (List.drop 2 w)) := by
        rw [List.getElem?_map, hw]; rfl
      rw [List.get?_eq_getElem?]
      simpa using hmap

/-- Witness for `c7_transform_headers` on concrete two-record datasets. -/
theorem c7_transform_headers_witness :
    (gen_iris_lines "5.1,3.5,1.4,setosa\n4.9,3.0,1.4,setosa").headD "" = "2 3 3"
  ∧ (gen_iris_lines "5.1,3.5,1.4,setosa\n4.9,3.0,1.4,setosa").get? 1
      = some "5.1 3.5 1.4"
  ∧ (["1 2 200", "0.5 0.25"] : List String).headD "" = "1 2 200"
  ∧ (["1 2 200", "0.5 0.25"] : List String).get? 1 = some "0.5 0.25" := by
  have h := c7_transform_headers "5.1,3.5,1.4,setosa\n4.9,3.0,1.4,setosa" 4
    (by decide)
    [["id", "sentiment", "w1", "w2"], ["1", "pos", "0.5", "0.25"]]
    ["1 2 200", "0.5 0.25"] rfl
  exact ⟨h.1, h.2.2.1 0 (pySplitSep ',' "5.1,3.5,1.4,setosa") rfl,
    h.2.2.2.1, h.2.2.2.2.2 0 ["1", "pos", "0.5", "0.25"] rfl⟩

/-! ### Claim C8 -/

/-- **C8**: the judge binary receives the instance on standard input and
the solver output path through the environment variable `SOLUTION`; its
standard output is stripped and parsed as a single Python float, and a
non-numeric output makes the parse raise a `ValueError` (no retry — the
parse outcome is the whole result). -/
theorem c8_judge_contract (judgeName input_path output_path : String)
    (proc : ProcResult) (hnn : isPyFloat (pyStrip proc.stdout) = false) :
    (judgePopen judgeName input_path output_path).stdinFile = some input_path
  ∧ (judgePopen judgeName input_path output_path).env
      = some [("SOLUTION", output_path)]
  ∧ (judgePopen judgeName input_path output_path).stdoutPiped = true
  ∧ judgeParse proc
      = .error (.valueError ("could not convert string to float: "
          ++ pyStrip proc.stdout)) := by
  refine ⟨rfl, rfl, rfl, ?_⟩
  simp [judgeParse, hnn]

/-- Witness for `c8_judge_contract` on a concrete non-numeric output. -/
theorem c8_judge_contract_witness :
    (judgePopen "facility_set_cost_z1" "data/gen/gen_n100_d2.in"
        "data/gen/gen_n100_d2.mettu_plaxton_z1..out").stdinFile
      = some "data/gen/gen_n100_d2.in"
  ∧ (judgePopen "facility_set_cost_z1" "data/gen/gen_n100_d2.in"
        "data/gen/gen_n100_d2.mettu_plaxton_z1..out").env
      = some [("SOLUTION", "data/gen/gen_n100_d2.mettu_plaxton_z1..out")]
  ∧ judgeParse ⟨0, "oops\n"⟩
      = .error (.valueError ("could not convert string to float: " ++ "oops")) := by
  have h := c8_judge_contract "facility_set_cost_z1" "data/gen/gen_n100_d2.in"
    "data/gen/gen_n100_d2.mettu_plaxton_z1..out" ⟨0, "oops\n"⟩ (by decide)
  exact ⟨h.1, h.2.1, h.2.2.2⟩

/-! ### Claim C9 -/

/-- **C9**: the environment of the judge subprocess is exactly the single
variable `SOLUTION` mapped to the solver output path — whatever the
harness's own environment is, none of it is inherited by the judge. -/
theorem c9_judge_env (judgeName input_path output_path : String)
    (parentEnv : List (String × String)) :
    childEnv parentEnv (judgePopen judgeName input_path output_path)
      = [("SOLUTION", output_path)]
  ∧ (∀ kv ∈ childEnv parentEnv (judgePopen judgeName input_path output_path),
      kv = ("SOLUTION", output_path)) := by
  refine ⟨rfl, ?_⟩
  intro kv hkv
  simpa [childEnv, judgePopen] using hkv

/-- Witness for `c9_judge_env` under a concrete parent environment. -/
theorem c9_judge_env_witness :
    childEnv [("PATH", "/usr/bin"), ("HOME", "/root")]
        (judgePopen "clustering_cost_z1" "data/iris/iris.in" "data/iris/iris.scikit_z1.alternate.out")
      = [("SOLUTION", "data/iris/iris.scikit_z1.alternate.out")]
  ∧ (("SOLUTION", "data/iris/iris.scikit_z1.alternate.out") : String × String)
      = ("SOLUTION", "data/iris/iris.scikit_z1.alternate.out") := by
  have h := c9_judge_env "clustering_cost_z1" "data/iris/iris.in"
    "data/iris/iris.scikit_z1.alternate.out" [("PATH", "/usr/bin"), ("HOME", "/root")]
  exact ⟨h.1, h.2 _ (by rw [h.1]; exact List.mem_singleton_self _)⟩

/-! ### Claim C10 -/

/-- **C10**: in the synthetic sweep the facility-location target always
passes the fixed cost parameter 1 to the generator, while the clustering
target passes `⌊√n⌋` for every size `n`; concretely the 27 clustering
generator calls carry exactly the listed (size, parameter) pairs. -/
theorem c10_sweep_parameters :
    (∀ p ∈ sweepGenParams Target.fl, p.2.2 = 1)
  ∧ (∀ p ∈ sweepGenParams Target.cl, p.2.2 = Nat.sqrt p.1)
  ∧ (sweepGenParams Target.cl).map (fun p => (p.1, p.2.2))
      = [(100, 10), (100, 10), (100, 10),
         (500, 22), (500, 22), (500, 22),
         (1000, 31), (1000, 31), (1000, 31),
         (5000, 70), (5000, 70), (5000, 70),
         (10000, 100), (10000, 100), (10000, 100),
         (50000, 223), (50000, 223), (50000, 223),
         (100000, 316), (100000, 316), (100000, 316),
         (500000, 707), (500000, 707), (500000, 707),
         (1000000, 1000), (1000000, 1000), (1000000, 1000)] := by
  refine ⟨by decide, ?_, ?_⟩
  · intro p hp
    obtain ⟨size, hsz, hp'⟩ := List.mem_flatMap.1 hp
    obtain ⟨dim, hd, rfl⟩ := List.mem_map.1 hp'
    rfl
  · simp [sweepGenParams, SIZES, DIMENSIONS, pyIsqrt, sqrt_100, sqrt_500, sqrt_1000,
      sqrt_5000, sqrt_10000, sqrt_50000, sqrt_100000, sqrt_500000, sqrt_1000000]

/-- Witness for `c10_sweep_parameters` at concrete sweep entries. -/
theorem c10_sweep_parameters_witness :
    ((100, 2, 1) : Nat × Nat × Nat) ∈ sweepGenParams Target.fl
  ∧ ((100, 2, 1) : Nat × Nat × Nat).2.2 = 1
  ∧ ((100, 10) : Nat × Nat) ∈ (sweepGenParams Target.cl).map (fun p => (p.1, p.2.2))
  ∧ Nat.sqrt 100 = 10 := by
  have h := c10_sweep_parameters
  have hm1 : ((100, 2, 1) : Nat × Nat × Nat) ∈ sweepGenParams Target.fl := by decide
  have hm2 : ((100, 10) : Nat × Nat)
      ∈ (sweepGenParams Target.cl).map (fun p => (p.1, p.2.2)) := by
    rw [h.2.2]; decide
  refine ⟨hm1, h.1 _ hm1, hm2, ?_⟩
  obtain ⟨p, hp, hpe⟩ := List.mem_map.1 hm2
  have := h.2.1 p hp
  have h1 : p.1 = 100 := congrArg Prod.fst hpe
  have h2 : p.2.2 = 10 := congrArg Prod.snd hpe
  rw [← h1, ← this, h2]

end PClust
